import Mathlib

/- Verification of the ECEF <-> LLA <-> ECEF coordinate changer notebook.

   The source is a single notebook that (1) derives the GRS80 ellipsoid
   constants b, e, e_prime from a and f, (2) converts an ECEF point to
   latitude/longitude/altitude by the closed (Bowring-style) formula set,
   (3) adds an altitude offset, and (4) converts back to ECEF.

   The embedding below is over the real numbers.  The notebook stores the
   angles lam/theta/phi in degrees as astropy quantities; every sine/cosine
   applied to such a quantity is evaluated on the radian value, so the
   radian-valued intermediate angles are the faithful semantics, with the
   degree conversion applied at the output boundary, exactly as here. -/

noncomputable section

open Real

/-- An Earth-centered Earth-fixed cartesian point, components in meters. -/
structure EcefPoint where
  X : ℝ
  Y : ℝ
  Z : ℝ

/-- A geodetic point: latitude and longitude in degrees, altitude in meters. -/
structure LlaPoint where
  lat : ℝ
  lon : ℝ
  alt : ℝ

/-- The reference ellipsoid model: semi-major axis a, semi-minor axis b,
    first eccentricity e, second eccentricity e_prime. -/
structure EllipsoidModel where
  a : ℝ
  b : ℝ
  e : ℝ
  e_prime : ℝ

/-- The derived-geometrical-constants cell of the notebook:
    b = a * (1 - f), e = ((a**2 - b**2)**(1/2))/a,
    e_prime = e/((1 - e**2)**(1/2)). -/
def mkEllipsoidModel (a f : ℝ) : EllipsoidModel :=
  let b := a * (1 - f)
  let e := Real.sqrt (a ^ 2 - b ^ 2) / a
  { a := a, b := b, e := e, e_prime := e / Real.sqrt (1 - e ^ 2) }

/-- np.degrees: radians to degrees. -/
def degrees (x : ℝ) : ℝ := x * 180 / Real.pi

/-- Degrees to radians, as performed implicitly by the unit-aware
    trigonometric calls of the notebook on degree-valued quantities. -/
def radiansOf (x : ℝ) : ℝ := x * Real.pi / 180

/-- Longitude cell: lam = np.arctan(Y/X) — the single-argument arctangent,
    exactly as written in the source (radian value; the notebook applies
    np.degrees for display). -/
def lamOf (pt : EcefPoint) : ℝ := Real.arctan (pt.Y / pt.X)

/-- Auxiliary value p = (X**2 + Y**2)**(1/2). -/
def pOf (pt : EcefPoint) : ℝ := Real.sqrt (pt.X ^ 2 + pt.Y ^ 2)

/-- The argument of the arctangent defining theta: (Z * a)/(p * b). -/
def sArg (pt : EcefPoint) (m : EllipsoidModel) : ℝ :=
  pt.Z * m.a / (pOf pt * m.b)

/-- Auxiliary angle theta = np.arctan((Z * a)/(p * b)) (radian value). -/
def thetaOf (pt : EcefPoint) (m : EllipsoidModel) : ℝ :=
  Real.arctan (sArg pt m)

/-- The argument of the arctangent defining phi:
    (Z + e_prime**2 * b * sin(theta)**3) / (p - e**2 * a * cos(theta)**3). -/
def tanPhiArg (pt : EcefPoint) (m : EllipsoidModel) : ℝ :=
  (pt.Z + m.e_prime ^ 2 * m.b * Real.sin (thetaOf pt m) ^ 3) /
    (pOf pt - m.e ^ 2 * m.a * Real.cos (thetaOf pt m) ^ 3)

/-- Latitude phi (radian value). -/
def phiOf (pt : EcefPoint) (m : EllipsoidModel) : ℝ :=
  Real.arctan (tanPhiArg pt m)

/-- Radius of curvature N = a / ((1 - e**2 * sin(phi)**2)**(1/2)). -/
def NOf (pt : EcefPoint) (m : EllipsoidModel) : ℝ :=
  m.a / Real.sqrt (1 - m.e ^ 2 * Real.sin (phiOf pt m) ^ 2)

/-- Altitude h = (p / cos(phi)) - N. -/
def hOf (pt : EcefPoint) (m : EllipsoidModel) : ℝ :=
  pOf pt / Real.cos (phiOf pt m) - NOf pt m

/-- Result of the forward conversion: the LLA point (angles in degrees)
    together with the radius of curvature N, reused by the way back. -/
structure EcefToLlaResult where
  lla : LlaPoint
  N : ℝ

/-- The ECEF-to-LLA cell: lam, p, theta, phi, N, h in sequence; angles are
    reported in degrees via np.degrees. -/
def ecefToLla (pt : EcefPoint) (m : EllipsoidModel) : EcefToLlaResult :=
  { lla := { lat := degrees (phiOf pt m), lon := degrees (lamOf pt), alt := hOf pt m }
    N := NOf pt m }

/-- The altitude-offset cell: h_offset = h + alt_offset; phi and lam are
    left untouched. -/
def applyAltitudeOffset (pt : LlaPoint) (d : ℝ) : LlaPoint :=
  { pt with alt := pt.alt + d }

/-- The LLA-to-ECEF cell:
    X_new = (N + h) * cos(phi) * cos(lam),
    Y_new = (N + h) * cos(phi) * sin(lam),
    Z_new = ((b**2/a**2) * N + h) * sin(phi),
    where the degree-valued angles are evaluated on their radian value. -/
def llaToEcef (pt : LlaPoint) (m : EllipsoidModel) (N : ℝ) : EcefPoint :=
  { X := (N + pt.alt) * Real.cos (radiansOf pt.lat) * Real.cos (radiansOf pt.lon)
    Y := (N + pt.alt) * Real.cos (radiansOf pt.lat) * Real.sin (radiansOf pt.lon)
    Z := (m.b ^ 2 / m.a ^ 2 * N + pt.alt) * Real.sin (radiansOf pt.lat) }

/-- The differences cell: X_dif = X_new - X_original, and likewise for Y, Z. -/
def diff (p q : EcefPoint) : EcefPoint :=
  { X := p.X - q.X, Y := p.Y - q.Y, Z := p.Z - q.Z }

/-- Error kind of the spec's external interface. -/
inductive ConversionError where
  | invalidParameter

/-- Modelled from the spec: the notebook derives the ellipsoid constants in
    a plain cell with no function boundary and no validation; the spec's
    external interface deriveEllipsoidModel(a, f) must fail with
    InvalidParameter when a <= 0 or f is not in the open interval (0, 1),
    and otherwise return the derived model. -/
def deriveEllipsoidModel (a f : ℝ) : Except ConversionError EllipsoidModel :=
  if 0 < a ∧ 0 < f ∧ f < 1 then .ok (mkEllipsoidModel a f)
  else .error .invalidParameter

/-- The GRS80 constants cell: a = 6378137.0 m, f = 0.003352810681183637418. -/
def grs80 : EllipsoidModel := mkEllipsoidModel 6378137.0 0.003352810681183637418

/-- GRS80 with the constants exactly as stated in the known-value scenario
    (the printed float64 value of the flattening literal):
    a = 6378137.0, f = 0.0033528106811836376. -/
def grs80Stated : EllipsoidModel := mkEllipsoidModel 6378137.0 0.0033528106811836376

/-- The original ECEF coordinates of the notebook (current GBT position). -/
def originalEcef : EcefPoint :=
  { X := 882589.289, Y := -4924872.368, Z := 3943729.418 }

/-- Argument-halving map for the arctangent, used to evaluate the angle
    outputs numerically: arctan x = 2 arctan (halfArg x). -/
def halfArg (x : ℝ) : ℝ := x / (1 + Real.sqrt (1 + x ^ 2))

/-- The offset scenario of the notebook: convert the original point, add the
    0.05 m altitude offset, and convert back reusing N. -/
def offsetResult : EcefPoint :=
  llaToEcef (applyAltitudeOffset (ecefToLla originalEcef grs80Stated).lla 0.05)
    grs80Stated (ecefToLla originalEcef grs80Stated).N

/-- Converting the stored degree value back to radians recovers the radian
    angle exactly. -/
theorem radiansOf_degrees (x : ℝ) : radiansOf (degrees x) = x := by
  rw [radiansOf, degrees]
  field_simp

theorem grs80_a : grs80.a = 6378137 := by
  show (6378137.0 : ℝ) = _
  norm_num

theorem grs80_b : grs80.b = 6356752.314140347438389669734 := by
  show (6378137.0 : ℝ) * (1 - 0.003352810681183637418) = _
  norm_num

theorem grs80_e_sq :
    grs80.e ^ 2 = 0.006694380022903415749245962953982710293276 := by
  show (Real.sqrt ((6378137.0 : ℝ) ^ 2 - (6378137.0 * (1 - 0.003352810681183637418)) ^ 2) /
      6378137.0) ^ 2 = _
  rw [div_pow, Real.sq_sqrt (by norm_num)]
  norm_num

theorem grs80Stated_a : grs80Stated.a = 6378137 := by
  show (6378137.0 : ℝ) = _
  norm_num

theorem grs80Stated_b : grs80Stated.b = 6356752.3141403474372288488 := by
  show (6378137.0 : ℝ) * (1 - 0.0033528106811836376) = _
  norm_num

theorem grs80Stated_e_sq :
    grs80Stated.e ^ 2 = 0.00669438002290341611202553986603186624 := by
  show (Real.sqrt ((6378137.0 : ℝ) ^ 2 - (6378137.0 * (1 - 0.0033528106811836376)) ^ 2) /
      6378137.0) ^ 2 = _
  rw [div_pow, Real.sq_sqrt (by norm_num)]
  norm_num

theorem grs80Stated_ep_sq :
    grs80Stated.e_prime ^ 2 =
      (0.00669438002290341611202553986603186624 : ℝ) /
        0.99330561997709658388797446013396813376 := by
  have he := grs80Stated_e_sq
  show (grs80Stated.e / Real.sqrt (1 - grs80Stated.e ^ 2)) ^ 2 = _
  rw [div_pow, Real.sq_sqrt (by rw [he]; norm_num), he]
  norm_num

/-- Enclosure of a square root from rational bounds on its argument. -/
theorem iv_sqrt2 {x A B : ℝ} (hA : 0 ≤ A) (hB : 0 ≤ B)
    (h1 : A ^ 2 ≤ x) (h2 : x ≤ B ^ 2) :
    A ≤ Real.sqrt x ∧ Real.sqrt x ≤ B := by
  constructor
  · have h := Real.sqrt_le_sqrt h1
    rwa [Real.sqrt_sq hA] at h
  · have h := Real.sqrt_le_sqrt h2
    rwa [Real.sqrt_sq hB] at h

/-- Enclosure of a quotient of nonnegative/positive enclosed quantities. -/
theorem iv_div2 {x y A B xl xu yl yu : ℝ} (hx1 : xl ≤ x) (hx2 : x ≤ xu)
    (hy1 : yl ≤ y) (hy2 : y ≤ yu) (h0x : 0 ≤ xl) (h0y : 0 < yl)
    (hA : A ≤ xl / yu) (hB : xu / yl ≤ B) :
    A ≤ x / y ∧ x / y ≤ B := by
  have hy : 0 < y := lt_of_lt_of_le h0y hy1
  refine ⟨le_trans hA ?_, le_trans ?_ hB⟩
  · exact div_le_div (le_trans h0x hx1) hx1 hy hy2
  · exact div_le_div (le_trans (le_trans h0x hx1) hx2) hx2 h0y hy1

/-- Enclosure of a product of nonnegative enclosed quantities. -/
theorem iv_mul2 {x y A B xl xu yl yu : ℝ} (hx1 : xl ≤ x) (hx2 : x ≤ xu)
    (hy1 : yl ≤ y) (hy2 : y ≤ yu) (h0x : 0 ≤ xl) (h0y : 0 ≤ yl)
    (hA : A ≤ xl * yl) (hB : xu * yu ≤ B) :
    A ≤ x * y ∧ x * y ≤ B := by
  constructor
  · exact le_trans hA (mul_le_mul hx1 hy1 h0y (le_trans h0x hx1))
  · exact le_trans
      (mul_le_mul hx2 hy2 (le_trans h0y hy1) (le_trans (le_trans h0x hx1) hx2)) hB

/-- Enclosure of a product of a nonnegative and a nonpositive quantity. -/
theorem iv_mul_mixed {x y A B xl xu yl yu : ℝ} (hx1 : xl ≤ x) (hx2 : x ≤ xu)
    (hy1 : yl ≤ y) (hy2 : y ≤ yu) (h0x : 0 ≤ xl) (h0y : yu ≤ 0)
    (hA : A ≤ xu * yl) (hB : xl * yu ≤ B) :
    A ≤ x * y ∧ x * y ≤ B := by
  have h0x' : 0 ≤ x := le_trans h0x hx1
  have hyl0 : yl ≤ 0 := le_trans (hy1.trans hy2) h0y
  constructor
  · calc A ≤ xu * yl := hA
      _ ≤ x * yl := mul_le_mul_of_nonpos_right hx2 hyl0
      _ ≤ x * y := mul_le_mul_of_nonneg_left hy1 h0x'
  · calc x * y ≤ x * yu := mul_le_mul_of_nonneg_left hy2 h0x'
      _ ≤ xl * yu := mul_le_mul_of_nonpos_right hx1 h0y
      _ ≤ B := hB

/-- Cubic lower bound of the arctangent on the nonnegative reals. -/
theorem arctan_ge_cubic {x : ℝ} (hx : 0 ≤ x) :
    x - x ^ 3 / 3 ≤ Real.arctan x := by
  have key : ∀ y : ℝ, HasDerivAt (fun t : ℝ => Real.arctan t - (t - t ^ 3 / 3))
      (1 / (1 + y ^ 2) - (1 - y ^ 2)) y := by
    intro y
    have h3 : HasDerivAt (fun t : ℝ => t ^ 3 / 3) (y ^ 2) y := by
      have h := (hasDerivAt_pow 3 y).div_const 3
      convert h using 1
      push_cast
      ring
    exact (Real.hasDerivAt_arctan y).sub ((hasDerivAt_id y).sub h3)
  have mono : Monotone (fun t : ℝ => Real.arctan t - (t - t ^ 3 / 3)) := by
    apply monotone_of_deriv_nonneg
    · exact fun y => (key y).differentiableAt
    · intro y
      rw [(key y).deriv]
      have hy : (0:ℝ) < 1 + y ^ 2 := by positivity
      have hval : 1 / (1 + y ^ 2) - (1 - y ^ 2) = y ^ 4 / (1 + y ^ 2) := by
        field_simp
        ring
      rw [hval]
      positivity
  have h0 := mono hx
  simp only [Real.arctan_zero] at h0
  norm_num at h0
  linarith

/-- Quintic upper bound of the arctangent on the nonnegative reals. -/
theorem arctan_le_quintic {x : ℝ} (hx : 0 ≤ x) :
    Real.arctan x ≤ x - x ^ 3 / 3 + x ^ 5 / 5 := by
  have key : ∀ y : ℝ, HasDerivAt (fun t : ℝ => t - t ^ 3 / 3 + t ^ 5 / 5 - Real.arctan t)
      (1 - y ^ 2 + y ^ 4 - 1 / (1 + y ^ 2)) y := by
    intro y
    have h3 : HasDerivAt (fun t : ℝ => t ^ 3 / 3) (y ^ 2) y := by
      have h := (hasDerivAt_pow 3 y).div_const 3
      convert h using 1
      push_cast
      ring
    have h5 : HasDerivAt (fun t : ℝ => t ^ 5 / 5) (y ^ 4) y := by
      have h := (hasDerivAt_pow 5 y).div_const 5
      convert h using 1
      push_cast
      ring
    exact (((hasDerivAt_id y).sub h3).add h5).sub (Real.hasDerivAt_arctan y)
  have mono : Monotone (fun t : ℝ => t - t ^ 3 / 3 + t ^ 5 / 5 - Real.arctan t) := by
    apply monotone_of_deriv_nonneg
    · exact fun y => (key y).differentiableAt
    · intro y
      rw [(key y).deriv]
      have hy : (0:ℝ) < 1 + y ^ 2 := by positivity
      have hval : 1 - y ^ 2 + y ^ 4 - 1 / (1 + y ^ 2) = y ^ 6 / (1 + y ^ 2) := by
        field_simp
        ring
      rw [hval]
      positivity
  have h0 := mono hx
  simp only [Real.arctan_zero] at h0
  norm_num at h0
  linarith

/-- Halving identity for the arctangent. -/
theorem arctan_half (x : ℝ) :
    Real.arctan x = 2 * Real.arctan (x / (1 + Real.sqrt (1 + x ^ 2))) := by
  set w := Real.sqrt (1 + x ^ 2) with hwdef
  have hw2 : w ^ 2 = 1 + x ^ 2 := Real.sq_sqrt (by positivity)
  have hw0 : 0 ≤ w := Real.sqrt_nonneg _
  have hw1 : 1 ≤ w := by nlinarith
  have hden : (0:ℝ) < 1 + w := by linarith
  set u := x / (1 + w) with hudef
  have hu2 : u ^ 2 < 1 := by
    rw [hudef, div_pow, div_lt_one (by positivity)]
    nlinarith
  have huneg : -1 < u := by nlinarith [sq_nonneg (u + 1)]
  have hupos : u < 1 := by nlinarith [sq_nonneg (u - 1)]
  have hlow : -(π / 2) < 2 * Real.arctan u := by
    have h := Real.arctan_strictMono huneg
    rw [show Real.arctan (-1) = -(π / 4) by
      rw [show (-1 : ℝ) = -(1 : ℝ) by norm_num, Real.arctan_neg, Real.arctan_one]] at h
    linarith
  have hhigh : 2 * Real.arctan u < π / 2 := by
    have h := Real.arctan_strictMono hupos
    rw [Real.arctan_one] at h
    linarith
  have hu1 : 1 - u ^ 2 ≠ 0 := by nlinarith
  have hkey : 2 * u = x * (1 - u ^ 2) := by
    rw [hudef, div_pow]
    field_simp
    linear_combination (-(x * (1 + w))) * hw2
  have htan : Real.tan (2 * Real.arctan u) = x := by
    rw [Real.tan_two_mul, Real.tan_arctan, eq_comm, eq_div_iff hu1]
    linarith [hkey]
  calc Real.arctan x = Real.arctan (Real.tan (2 * Real.arctan u)) := by rw [htan]
    _ = 2 * Real.arctan u := Real.arctan_tan hlow hhigh

/-- C1 evaluation: at the ECEF input (-1, 0, 0) — off the polar axis and away
    from the origin — the notebook's round trip returns X = +1 because the
    single-argument arctangent loses the sign of X, so the reproduction error
    in the X component is 2 meters, far above the claimed 1e-6. -/
theorem roundtrip_fails_on_negative_X :
    (llaToEcef (ecefToLla ⟨-1, 0, 0⟩ grs80).lla grs80
        (ecefToLla ⟨-1, 0, 0⟩ grs80).N).X = 1 ∧
    1e-6 < |(llaToEcef (ecefToLla ⟨-1, 0, 0⟩ grs80).lla grs80
        (ecefToLla ⟨-1, 0, 0⟩ grs80).N).X - (⟨-1, 0, 0⟩ : EcefPoint).X| := by
  have hlam : lamOf ⟨-1, 0, 0⟩ = 0 := by
    simp [lamOf, Real.arctan_zero]
  have hp : pOf ⟨-1, 0, 0⟩ = 1 := by
    simp [pOf, Real.sqrt_one]
  have hs : sArg ⟨-1, 0, 0⟩ grs80 = 0 := by
    simp [sArg]
  have hth : thetaOf ⟨-1, 0, 0⟩ grs80 = 0 := by
    simp [thetaOf, hs, Real.arctan_zero]
  have hT : tanPhiArg ⟨-1, 0, 0⟩ grs80 = 0 := by
    simp [tanPhiArg, hth]
  have hphi : phiOf ⟨-1, 0, 0⟩ grs80 = 0 := by
    simp [phiOf, hT, Real.arctan_zero]
  have hN : NOf ⟨-1, 0, 0⟩ grs80 = grs80.a := by
    simp [NOf, hphi, Real.sqrt_one]
  have hh : hOf ⟨-1, 0, 0⟩ grs80 = 1 - grs80.a := by
    simp [hOf, hphi, hp, hN]
  have hX : (llaToEcef (ecefToLla ⟨-1, 0, 0⟩ grs80).lla grs80
      (ecefToLla ⟨-1, 0, 0⟩ grs80).N).X = 1 := by
    simp only [llaToEcef, ecefToLla, hlam, hphi, hh, hN]
    simp only [radiansOf_degrees, Real.cos_zero]
    ring
  refine ⟨hX, ?_⟩
  rw [hX]
  norm_num

/-- C2 evaluation: for X = -1, Y = 1 (negative X, positive Y) the notebook's
    longitude is arctan(1/(-1)) = -45 degrees, not in the claimed quadrant
    (90, 180): the source uses the single-argument arctangent. -/
theorem longitude_uses_single_arg_arctan :
    (ecefToLla ⟨-1, 1, 0⟩ grs80).lla.lon = -45 ∧
    ¬(90 < (ecefToLla ⟨-1, 1, 0⟩ grs80).lla.lon ∧
        (ecefToLla ⟨-1, 1, 0⟩ grs80).lla.lon < 180) := by
  have hlam : lamOf ⟨-1, 1, 0⟩ = -(π / 4) := by
    show Real.arctan ((1 : ℝ) / (-1)) = _
    rw [show ((1 : ℝ) / (-1)) = -1 by norm_num, Real.arctan_neg, Real.arctan_one]
  have heq : (ecefToLla ⟨-1, 1, 0⟩ grs80).lla.lon = -45 := by
    show degrees (lamOf ⟨-1, 1, 0⟩) = -45
    rw [degrees, hlam, div_eq_iff Real.pi_ne_zero]
    ring
  refine ⟨heq, ?_⟩
  rw [heq]
  rintro ⟨hcontra, -⟩
  norm_num at hcontra

/-- C3 evaluation: at the geographic North Pole input (0, 0, b) the notebook
    has no polar-safe branch: the latitude it computes is negative (not the
    claimed 90 degrees) and the altitude evaluates through the general
    formula h = p/cos(phi) - N, yielding -N. -/
theorem north_pole_no_polar_branch :
    (ecefToLla ⟨0, 0, grs80.b⟩ grs80).lla.lat < 0 ∧
    (ecefToLla ⟨0, 0, grs80.b⟩ grs80).lla.alt =
      -(ecefToLla ⟨0, 0, grs80.b⟩ grs80).N := by
  have hp : pOf ⟨0, 0, grs80.b⟩ = 0 := by
    simp [pOf, Real.sqrt_zero]
  have hs : sArg ⟨0, 0, grs80.b⟩ grs80 = 0 := by
    simp [sArg, hp]
  have hth : thetaOf ⟨0, 0, grs80.b⟩ grs80 = 0 := by
    simp [thetaOf, hs, Real.arctan_zero]
  have hT : tanPhiArg ⟨0, 0, grs80.b⟩ grs80 = -(grs80.b / (grs80.e ^ 2 * grs80.a)) := by
    simp [tanPhiArg, hth, hp, div_neg]
  have hbpos : 0 < grs80.b / (grs80.e ^ 2 * grs80.a) := by
    rw [grs80_b, grs80_e_sq, grs80_a]
    norm_num
  have hphi : phiOf ⟨0, 0, grs80.b⟩ grs80 < 0 := by
    rw [phiOf, hT, Real.arctan_neg]
    have h0 := Real.arctan_strictMono hbpos
    rw [Real.arctan_zero] at h0
    linarith
  constructor
  · show degrees (phiOf ⟨0, 0, grs80.b⟩ grs80) < 0
    rw [degrees]
    exact div_neg_of_neg_of_pos (by linarith) Real.pi_pos
  · show hOf ⟨0, 0, grs80.b⟩ grs80 = -(NOf ⟨0, 0, grs80.b⟩ grs80)
    rw [hOf, hp]
    simp

/-- C6: the spec-modelled deriveEllipsoidModel rejects exactly the
    out-of-domain ellipsoid constants and succeeds on the valid range. -/
theorem deriveEllipsoidModel_validates (a f : ℝ) :
    ((a ≤ 0 ∨ f ≤ 0 ∨ 1 ≤ f) →
      deriveEllipsoidModel a f = Except.error ConversionError.invalidParameter) ∧
    (0 < a → 0 < f → f < 1 →
      deriveEllipsoidModel a f = Except.ok (mkEllipsoidModel a f)) := by
  constructor
  · intro h
    rw [deriveEllipsoidModel, if_neg]
    rintro ⟨h1, h2, h3⟩
    rcases h with h | h | h <;> linarith
  · intro h1 h2 h3
    rw [deriveEllipsoidModel, if_pos ⟨h1, h2, h3⟩]

theorem deriveEllipsoidModel_validates_witness :
    deriveEllipsoidModel (-1) 0.5 = Except.error ConversionError.invalidParameter ∧
    deriveEllipsoidModel 2 0.5 = Except.ok (mkEllipsoidModel 2 0.5) :=
  ⟨(deriveEllipsoidModel_validates (-1) 0.5).1 (Or.inl (by norm_num)),
   (deriveEllipsoidModel_validates 2 0.5).2 (by norm_num) (by norm_num) (by norm_num)⟩

/-- C7: for valid constants the derived model satisfies
    0 < b < a, 0 <= e < 1 and e < e_prime. -/
theorem ellipsoid_model_invariants (a f : ℝ) (ha : 0 < a) (hf0 : 0 < f) (hf1 : f < 1) :
    0 < (mkEllipsoidModel a f).b ∧ (mkEllipsoidModel a f).b < (mkEllipsoidModel a f).a ∧
    0 ≤ (mkEllipsoidModel a f).e ∧ (mkEllipsoidModel a f).e < 1 ∧
    (mkEllipsoidModel a f).e < (mkEllipsoidModel a f).e_prime := by
  have hbeq : (mkEllipsoidModel a f).b = a * (1 - f) := rfl
  have haeq : (mkEllipsoidModel a f).a = a := rfl
  have heeq : (mkEllipsoidModel a f).e = Real.sqrt (a ^ 2 - (a * (1 - f)) ^ 2) / a := rfl
  have hpeq : (mkEllipsoidModel a f).e_prime =
      (mkEllipsoidModel a f).e / Real.sqrt (1 - (mkEllipsoidModel a f).e ^ 2) := rfl
  have hd : 0 < a ^ 2 - (a * (1 - f)) ^ 2 := by
    have h : a ^ 2 - (a * (1 - f)) ^ 2 = a ^ 2 * (f * (2 - f)) := by ring
    rw [h]
    exact mul_pos (by positivity) (mul_pos hf0 (by linarith))
  have hb2 : 0 < (a * (1 - f)) ^ 2 := by
    have h1f : 0 < 1 - f := by linarith
    positivity
  have he0 : 0 < (mkEllipsoidModel a f).e := by
    rw [heeq]
    exact div_pos (Real.sqrt_pos.mpr hd) ha
  have he1 : (mkEllipsoidModel a f).e < 1 := by
    rw [heeq, div_lt_one ha]
    have h1 : Real.sqrt (a ^ 2 - (a * (1 - f)) ^ 2) < Real.sqrt (a ^ 2) :=
      Real.sqrt_lt_sqrt hd.le (by linarith)
    rwa [Real.sqrt_sq ha.le] at h1
  have he2 : 0 < 1 - (mkEllipsoidModel a f).e ^ 2 := by nlinarith
  have hsq : Real.sqrt (1 - (mkEllipsoidModel a f).e ^ 2) < 1 := by
    rw [Real.sqrt_lt' one_pos]
    nlinarith
  have hsqpos : 0 < Real.sqrt (1 - (mkEllipsoidModel a f).e ^ 2) := Real.sqrt_pos.mpr he2
  refine ⟨by rw [hbeq]; nlinarith, by rw [hbeq, haeq]; nlinarith, he0.le, he1, ?_⟩
  rw [hpeq, lt_div_iff hsqpos]
  nlinarith

theorem ellipsoid_model_invariants_witness :
    (0:ℝ) < 2 ∧ (0:ℝ) < 0.5 ∧ (0.5:ℝ) < 1 ∧
    (0 < (mkEllipsoidModel 2 0.5).b ∧
      (mkEllipsoidModel 2 0.5).b < (mkEllipsoidModel 2 0.5).a ∧
      0 ≤ (mkEllipsoidModel 2 0.5).e ∧ (mkEllipsoidModel 2 0.5).e < 1 ∧
      (mkEllipsoidModel 2 0.5).e < (mkEllipsoidModel 2 0.5).e_prime) :=
  ⟨by norm_num, by norm_num, by norm_num,
    ellipsoid_model_invariants 2 0.5 (by norm_num) (by norm_num) (by norm_num)⟩

/-- C8: a zero altitude offset returns the point unchanged. -/
theorem applyAltitudeOffset_zero (p : LlaPoint) : applyAltitudeOffset p 0 = p := by
  cases p
  simp [applyAltitudeOffset]

/-- C9: a positive altitude offset strictly increases the stored altitude,
    and the resulting ECEF point is displaced by exactly d along the local
    outward unit normal (cos phi cos lam, cos phi sin lam, sin phi): the
    displacement-normal inner product equals d and is positive. -/
theorem altitude_offset_monotone_outward (p : LlaPoint) (m : EllipsoidModel)
    (N d : ℝ) (hd : 0 < d) :
    p.alt < (applyAltitudeOffset p d).alt ∧
    (diff (llaToEcef (applyAltitudeOffset p d) m N) (llaToEcef p m N)).X *
        (Real.cos (radiansOf p.lat) * Real.cos (radiansOf p.lon)) +
      (diff (llaToEcef (applyAltitudeOffset p d) m N) (llaToEcef p m N)).Y *
        (Real.cos (radiansOf p.lat) * Real.sin (radiansOf p.lon)) +
      (diff (llaToEcef (applyAltitudeOffset p d) m N) (llaToEcef p m N)).Z *
        Real.sin (radiansOf p.lat) = d ∧
    0 < (diff (llaToEcef (applyAltitudeOffset p d) m N) (llaToEcef p m N)).X *
        (Real.cos (radiansOf p.lat) * Real.cos (radiansOf p.lon)) +
      (diff (llaToEcef (applyAltitudeOffset p d) m N) (llaToEcef p m N)).Y *
        (Real.cos (radiansOf p.lat) * Real.sin (radiansOf p.lon)) +
      (diff (llaToEcef (applyAltitudeOffset p d) m N) (llaToEcef p m N)).Z *
        Real.sin (radiansOf p.lat) := by
  have hsum : (diff (llaToEcef (applyAltitudeOffset p d) m N) (llaToEcef p m N)).X *
        (Real.cos (radiansOf p.lat) * Real.cos (radiansOf p.lon)) +
      (diff (llaToEcef (applyAltitudeOffset p d) m N) (llaToEcef p m N)).Y *
        (Real.cos (radiansOf p.lat) * Real.sin (radiansOf p.lon)) +
      (diff (llaToEcef (applyAltitudeOffset p d) m N) (llaToEcef p m N)).Z *
        Real.sin (radiansOf p.lat) = d := by
    simp only [diff, llaToEcef, applyAltitudeOffset]
    linear_combination (d * Real.cos (radiansOf p.lat) ^ 2) *
        Real.sin_sq_add_cos_sq (radiansOf p.lon) +
      d * Real.sin_sq_add_cos_sq (radiansOf p.lat)
  refine ⟨?_, hsum, by rw [hsum]; exact hd⟩
  simp only [applyAltitudeOffset]
  linarith

theorem altitude_offset_monotone_outward_witness :
    (0:ℝ) < 1 ∧
    ((⟨0, 0, 0⟩ : LlaPoint).alt < (applyAltitudeOffset ⟨0, 0, 0⟩ 1).alt ∧
      (diff (llaToEcef (applyAltitudeOffset ⟨0, 0, 0⟩ 1) grs80 1) (llaToEcef ⟨0, 0, 0⟩ grs80 1)).X *
          (Real.cos (radiansOf (⟨0, 0, 0⟩ : LlaPoint).lat) *
            Real.cos (radiansOf (⟨0, 0, 0⟩ : LlaPoint).lon)) +
        (diff (llaToEcef (applyAltitudeOffset ⟨0, 0, 0⟩ 1) grs80 1) (llaToEcef ⟨0, 0, 0⟩ grs80 1)).Y *
          (Real.cos (radiansOf (⟨0, 0, 0⟩ : LlaPoint).lat) *
            Real.sin (radiansOf (⟨0, 0, 0⟩ : LlaPoint).lon)) +
        (diff (llaToEcef (applyAltitudeOffset ⟨0, 0, 0⟩ 1) grs80 1) (llaToEcef ⟨0, 0, 0⟩ grs80 1)).Z *
          Real.sin (radiansOf (⟨0, 0, 0⟩ : LlaPoint).lat) = 1 ∧
      0 < (diff (llaToEcef (applyAltitudeOffset ⟨0, 0, 0⟩ 1) grs80 1) (llaToEcef ⟨0, 0, 0⟩ grs80 1)).X *
          (Real.cos (radiansOf (⟨0, 0, 0⟩ : LlaPoint).lat) *
            Real.cos (radiansOf (⟨0, 0, 0⟩ : LlaPoint).lon)) +
        (diff (llaToEcef (applyAltitudeOffset ⟨0, 0, 0⟩ 1) grs80 1) (llaToEcef ⟨0, 0, 0⟩ grs80 1)).Y *
          (Real.cos (radiansOf (⟨0, 0, 0⟩ : LlaPoint).lat) *
            Real.sin (radiansOf (⟨0, 0, 0⟩ : LlaPoint).lon)) +
        (diff (llaToEcef (applyAltitudeOffset ⟨0, 0, 0⟩ 1) grs80 1) (llaToEcef ⟨0, 0, 0⟩ grs80 1)).Z *
          Real.sin (radiansOf (⟨0, 0, 0⟩ : LlaPoint).lat)) :=
  ⟨by norm_num, altitude_offset_monotone_outward ⟨0, 0, 0⟩ grs80 1 1 (by norm_num)⟩

/-- C10: whenever the arithmetic of the conversion is defined (X nonzero and
    a nonzero latitude denominator), both returned angles lie strictly inside
    (-90, 90) degrees, because each comes from a single-argument arctangent
    with range (-pi/2, pi/2). -/
theorem single_arctan_quadrant_confinement (pt : EcefPoint) (m : EllipsoidModel)
    (hX : pt.X ≠ 0)
    (hden : pOf pt - m.e ^ 2 * m.a * Real.cos (thetaOf pt m) ^ 3 ≠ 0) :
    -90 < (ecefToLla pt m).lla.lon ∧ (ecefToLla pt m).lla.lon < 90 ∧
    -90 < (ecefToLla pt m).lla.lat ∧ (ecefToLla pt m).lla.lat < 90 := by
  have hpi := Real.pi_pos
  have h1 := Real.arctan_lt_pi_div_two (pt.Y / pt.X)
  have h2 := Real.neg_pi_div_two_lt_arctan (pt.Y / pt.X)
  have h3 := Real.arctan_lt_pi_div_two (tanPhiArg pt m)
  have h4 := Real.neg_pi_div_two_lt_arctan (tanPhiArg pt m)
  simp only [ecefToLla, degrees, lamOf, phiOf]
  refine ⟨?_, ?_, ?_, ?_⟩
  · rw [lt_div_iff hpi]
    linarith
  · rw [div_lt_iff hpi]
    linarith
  · rw [lt_div_iff hpi]
    linarith
  · rw [div_lt_iff hpi]
    linarith

theorem single_arctan_quadrant_confinement_witness :
    ((⟨1, 0, 0⟩ : EcefPoint).X ≠ 0) ∧
    (pOf ⟨1, 0, 0⟩ - grs80.e ^ 2 * grs80.a * Real.cos (thetaOf ⟨1, 0, 0⟩ grs80) ^ 3 ≠ 0) ∧
    (-90 < (ecefToLla ⟨1, 0, 0⟩ grs80).lla.lon ∧
      (ecefToLla ⟨1, 0, 0⟩ grs80).lla.lon < 90 ∧
      -90 < (ecefToLla ⟨1, 0, 0⟩ grs80).lla.lat ∧
      (ecefToLla ⟨1, 0, 0⟩ grs80).lla.lat < 90) := by
  have hX : (⟨1, 0, 0⟩ : EcefPoint).X ≠ 0 := by norm_num
  have hp1 : pOf ⟨1, 0, 0⟩ = 1 := by
    simp [pOf, Real.sqrt_one]
  have hth : thetaOf ⟨1, 0, 0⟩ grs80 = 0 := by
    simp [thetaOf, sArg, Real.arctan_zero]
  have hden : pOf ⟨1, 0, 0⟩ - grs80.e ^ 2 * grs80.a * Real.cos (thetaOf ⟨1, 0, 0⟩ grs80) ^ 3 ≠ 0 := by
    rw [hp1, hth, grs80_e_sq, grs80_a, Real.cos_zero]
    norm_num
  exact ⟨hX, hden, single_arctan_quadrant_confinement _ _ hX hden⟩

theorem originalEcef_X : originalEcef.X = 882589.289 := rfl

theorem originalEcef_Y : originalEcef.Y = -4924872.368 := rfl

theorem originalEcef_Z : originalEcef.Z = 3943729.418 := rfl

/-- Squaring preserves an enclosure of a nonnegative quantity. -/
theorem sq_bounds {x A B : ℝ} (h1 : A ≤ x) (h2 : x ≤ B) (h0 : 0 ≤ A) :
    A ^ 2 ≤ x ^ 2 ∧ x ^ 2 ≤ B ^ 2 :=
  ⟨pow_le_pow_left h0 h1 2, pow_le_pow_left (le_trans h0 h1) h2 2⟩

/-- Cubing preserves an enclosure of a nonnegative quantity. -/
theorem iv_pow3 {x A B xl xu : ℝ} (hx1 : xl ≤ x) (hx2 : x ≤ xu) (h0 : 0 ≤ xl)
    (hA : A ≤ xl ^ 3) (hB : xu ^ 3 ≤ B) : A ≤ x ^ 3 ∧ x ^ 3 ≤ B :=
  ⟨le_trans hA (pow_le_pow_left h0 hx1 3),
   le_trans (pow_le_pow_left (le_trans h0 hx1) hx2 3) hB⟩

theorem arctan_halfArg (x : ℝ) : Real.arctan x = 2 * Real.arctan (halfArg x) :=
  arctan_half x

/-- Enclosure of the halving map from rational enclosures of its pieces. -/
theorem halfArg_bounds (x A B qa qb ua ub : ℝ) (hx1 : A ≤ x) (hx2 : x ≤ B)
    (h0 : 0 ≤ A) (hqa : 0 ≤ qa) (hqb : 0 ≤ qb)
    (hqa2 : qa ^ 2 ≤ 1 + A ^ 2) (hqb2 : 1 + B ^ 2 ≤ qb ^ 2)
    (hua : ua ≤ A / (1 + qb)) (hub : B / (1 + qa) ≤ ub) :
    ua ≤ halfArg x ∧ halfArg x ≤ ub := by
  have hsq := sq_bounds hx1 hx2 h0
  have hq : qa ≤ Real.sqrt (1 + x ^ 2) ∧ Real.sqrt (1 + x ^ 2) ≤ qb :=
    iv_sqrt2 hqa hqb (by linarith [hsq.1]) (by linarith [hsq.2])
  have hy1 : 1 + qa ≤ 1 + Real.sqrt (1 + x ^ 2) := by linarith [hq.1]
  have hy2 : 1 + Real.sqrt (1 + x ^ 2) ≤ 1 + qb := by linarith [hq.2]
  have h0y : (0:ℝ) < 1 + qa := by linarith
  simp only [halfArg]
  exact iv_div2 hx1 hx2 hy1 hy2 h0 h0y hua hub

theorem sin_theta_eq : Real.sin (thetaOf originalEcef grs80Stated) =
    sArg originalEcef grs80Stated / Real.sqrt (1 + sArg originalEcef grs80Stated ^ 2) := by
  rw [thetaOf, Real.sin_arctan]

theorem cos_theta_eq : Real.cos (thetaOf originalEcef grs80Stated) =
    1 / Real.sqrt (1 + sArg originalEcef grs80Stated ^ 2) := by
  rw [thetaOf, Real.cos_arctan]

theorem sin_phi_eq : Real.sin (phiOf originalEcef grs80Stated) =
    tanPhiArg originalEcef grs80Stated /
      Real.sqrt (1 + tanPhiArg originalEcef grs80Stated ^ 2) := by
  rw [phiOf, Real.sin_arctan]

theorem cos_phi_eq : Real.cos (phiOf originalEcef grs80Stated) =
    1 / Real.sqrt (1 + tanPhiArg originalEcef grs80Stated ^ 2) := by
  rw [phiOf, Real.cos_arctan]

theorem kv_lam_eq : lamOf originalEcef = -Real.arctan ((4924872368 : ℝ) / 882589289) := by
  rw [lamOf, originalEcef_Y, originalEcef_X,
    show ((-4924872.368 : ℝ) / 882589.289) = -((4924872368 : ℝ) / 882589289) by norm_num,
    Real.arctan_neg]

theorem cos_lam_eq : Real.cos (lamOf originalEcef) =
    1 / Real.sqrt (1 + ((4924872368 : ℝ) / 882589289) ^ 2) := by
  rw [lamOf, originalEcef_Y, originalEcef_X,
    show ((-4924872.368 : ℝ) / 882589.289) = -((4924872368 : ℝ) / 882589289) by norm_num,
    Real.cos_arctan, show (-((4924872368 : ℝ) / 882589289)) ^ 2 = ((4924872368 : ℝ) / 882589289) ^ 2 by ring]

theorem sin_lam_eq : Real.sin (lamOf originalEcef) =
    -(((4924872368 : ℝ) / 882589289) / Real.sqrt (1 + ((4924872368 : ℝ) / 882589289) ^ 2)) := by
  rw [lamOf, originalEcef_Y, originalEcef_X,
    show ((-4924872.368 : ℝ) / 882589.289) = -((4924872368 : ℝ) / 882589289) by norm_num,
    Real.sin_arctan, show (-((4924872368 : ℝ) / 882589289)) ^ 2 = ((4924872368 : ℝ) / 882589289) ^ 2 by ring, neg_div]

theorem kv_p : (5003332.0591529254350832018 : ℝ) ≤ pOf originalEcef ∧
    pOf originalEcef ≤ 5003332.0591529254350832019 := by
  simp only [pOf, originalEcef_X, originalEcef_Y]
  exact iv_sqrt2 (by norm_num) (by norm_num) (by norm_num) (by norm_num)

theorem kv_s : (0.79087224898819996185831627 : ℝ) ≤ sArg originalEcef grs80Stated ∧
    sArg originalEcef grs80Stated ≤ 0.7908722489881999618583163 := by
  have hp := kv_p
  simp only [sArg, originalEcef_Z, grs80Stated_a, grs80Stated_b]
  have hy1 : (5003332.0591529254350832018 : ℝ) * 6356752.3141403474372288488 ≤ pOf originalEcef * 6356752.3141403474372288488 :=
    mul_le_mul_of_nonneg_right hp.1 (by norm_num)
  have hy2 : pOf originalEcef * 6356752.3141403474372288488 ≤ (5003332.0591529254350832019 : ℝ) * 6356752.3141403474372288488 :=
    mul_le_mul_of_nonneg_right hp.2 (by norm_num)
  exact iv_div2 (le_refl ((3943729.418 : ℝ) * 6378137)) (le_refl _) hy1 hy2 (by norm_num) (by norm_num) (by norm_num) (by norm_num)

theorem kv_w : (1.2749427101715799667437218 : ℝ) ≤ Real.sqrt (1 + sArg originalEcef grs80Stated ^ 2) ∧
    Real.sqrt (1 + sArg originalEcef grs80Stated ^ 2) ≤ 1.2749427101715799667437219 := by
  have hsq := sq_bounds kv_s.1 kv_s.2 (by norm_num)
  exact iv_sqrt2 (by norm_num) (by norm_num) (by linarith [hsq.1]) (by linarith [hsq.2])

theorem kv_st : (0.62031983294509406273723931 : ℝ) ≤ Real.sin (thetaOf originalEcef grs80Stated) ∧
    Real.sin (thetaOf originalEcef grs80Stated) ≤ 0.62031983294509406273723939 := by
  rw [sin_theta_eq]
  exact iv_div2 kv_s.1 kv_s.2 kv_w.1 kv_w.2 (by norm_num) (by norm_num) (by norm_num) (by norm_num)

theorem kv_cb : (0.23869702165018892829552046 : ℝ) ≤ Real.sin (thetaOf originalEcef grs80Stated) ^ 3 ∧
    Real.sin (thetaOf originalEcef grs80Stated) ^ 3 ≤ 0.23869702165018892829552056 :=
  iv_pow3 kv_st.1 kv_st.2 (by norm_num) (by norm_num) (by norm_num)

theorem kv_ct : (0.78434896879830892951896919 : ℝ) ≤ Real.cos (thetaOf originalEcef grs80Stated) ∧
    Real.cos (thetaOf originalEcef grs80Stated) ≤ 0.78434896879830892951896927 := by
  rw [cos_theta_eq]
  exact iv_div2 (le_refl (1 : ℝ)) (le_refl _) kv_w.1 kv_w.2 (by norm_num) (by norm_num) (by norm_num) (by norm_num)

theorem kv_ic : (0.48253407776430786733041606 : ℝ) ≤ Real.cos (thetaOf originalEcef grs80Stated) ^ 3 ∧
    Real.cos (thetaOf originalEcef grs80Stated) ^ 3 ≤ 0.48253407776430786733041621 :=
  iv_pow3 kv_ct.1 kv_ct.2 (by norm_num) (by norm_num) (by norm_num)

theorem kv_num : (3953955.5115120307430942333 : ℝ) ≤
    originalEcef.Z + grs80Stated.e_prime ^ 2 * grs80Stated.b *
      Real.sin (thetaOf originalEcef grs80Stated) ^ 3 ∧
    originalEcef.Z + grs80Stated.e_prime ^ 2 * grs80Stated.b *
      Real.sin (thetaOf originalEcef grs80Stated) ^ 3 ≤ 3953955.5115120307430942334 := by
  rw [originalEcef_Z, grs80Stated_ep_sq, grs80Stated_b]
  constructor
  · linarith [kv_cb.1]
  · linarith [kv_cb.2]

theorem kv_den : (4982728.9769296532112505835 : ℝ) ≤
    pOf originalEcef - grs80Stated.e ^ 2 * grs80Stated.a *
      Real.cos (thetaOf originalEcef grs80Stated) ^ 3 ∧
    pOf originalEcef - grs80Stated.e ^ 2 * grs80Stated.a *
      Real.cos (thetaOf originalEcef grs80Stated) ^ 3 ≤ 4982728.9769296532112505837 := by
  rw [grs80Stated_e_sq, grs80Stated_a]
  constructor
  · linarith [kv_p.1, kv_ic.2]
  · linarith [kv_p.2, kv_ic.1]

theorem kv_T : (0.79353212462871090245761217 : ℝ) ≤ tanPhiArg originalEcef grs80Stated ∧
    tanPhiArg originalEcef grs80Stated ≤ 0.79353212462871090245761223 := by
  simp only [tanPhiArg]
  exact iv_div2 kv_num.1 kv_num.2 kv_den.1 kv_den.2 (by norm_num) (by norm_num) (by norm_num) (by norm_num)

theorem kv_v : (1.2765943885266596188954101 : ℝ) ≤ Real.sqrt (1 + tanPhiArg originalEcef grs80Stated ^ 2) ∧
    Real.sqrt (1 + tanPhiArg originalEcef grs80Stated ^ 2) ≤ 1.2765943885266596188954102 := by
  have hsq := sq_bounds kv_T.1 kv_T.2 (by norm_num)
  exact iv_sqrt2 (by norm_num) (by norm_num) (by linarith [hsq.1]) (by linarith [hsq.2])

theorem kv_sin2 : (0.3863875851831390662105636 : ℝ) ≤ Real.sin (phiOf originalEcef grs80Stated) ^ 2 ∧
    Real.sin (phiOf originalEcef grs80Stated) ^ 2 ≤ 0.38638758518313906621056369 := by
  rw [sin_phi_eq, div_pow, Real.sq_sqrt (by positivity)]
  have hsq := sq_bounds kv_T.1 kv_T.2 (by norm_num)
  have hy1 : (1 : ℝ) + (0.79353212462871090245761217 : ℝ) ^ 2 ≤ 1 + tanPhiArg originalEcef grs80Stated ^ 2 := by
    linarith [hsq.1]
  have hy2 : 1 + tanPhiArg originalEcef grs80Stated ^ 2 ≤ (1 : ℝ) + (0.79353212462871090245761223 : ℝ) ^ 2 := by
    linarith [hsq.2]
  exact iv_div2 hsq.1 hsq.2 hy1 hy2 (by norm_num) (by norm_num) (by norm_num) (by norm_num)

theorem kv_N : (6386401.96259730657714585 : ℝ) ≤ NOf originalEcef grs80Stated ∧
    NOf originalEcef grs80Stated ≤ 6386401.9625973065771458502 := by
  simp only [NOf]
  rw [grs80Stated_a, grs80Stated_e_sq]
  have hg1 : (0.99741337466865210185397117 : ℝ) ≤
      1 - 0.00669438002290341611202553986603186624 * Real.sin (phiOf originalEcef grs80Stated) ^ 2 := by
    linarith [kv_sin2.2]
  have hg2 : 1 - (0.00669438002290341611202553986603186624 : ℝ) * Real.sin (phiOf originalEcef grs80Stated) ^ 2 ≤ 0.99741337466865210185397118 := by
    linarith [kv_sin2.1]
  have hsg := iv_sqrt2 (show (0:ℝ) ≤ 0.99870584992211400476321678 by norm_num)
    (show (0:ℝ) ≤ 0.9987058499221140047632168 by norm_num)
    (show (0.99870584992211400476321678 : ℝ) ^ 2 ≤
      1 - 0.00669438002290341611202553986603186624 * Real.sin (phiOf originalEcef grs80Stated) ^ 2 by linarith [hg1])
    (show 1 - (0.00669438002290341611202553986603186624 : ℝ) * Real.sin (phiOf originalEcef grs80Stated) ^ 2 ≤
      (0.9987058499221140047632168 : ℝ) ^ 2 by linarith [hg2])
  exact iv_div2 (le_refl ((6378137 : ℝ))) (le_refl _) hsg.1 hsg.2 (by norm_num) (by norm_num) (by norm_num) (by norm_num)

theorem kv_h : (823.6680528550225444907 : ℝ) ≤ hOf originalEcef grs80Stated ∧
    hOf originalEcef grs80Stated ≤ 823.6680528550225444916 := by
  have hpv : (6387225.6306501615996903409 : ℝ) ≤
      pOf originalEcef * Real.sqrt (1 + tanPhiArg originalEcef grs80Stated ^ 2) ∧
      pOf originalEcef * Real.sqrt (1 + tanPhiArg originalEcef grs80Stated ^ 2) ≤ 6387225.6306501615996903416 :=
    iv_mul2 kv_p.1 kv_p.2 kv_v.1 kv_v.2 (by norm_num) (by norm_num) (by norm_num) (by norm_num)
  simp only [hOf]
  rw [cos_phi_eq, div_div_eq_mul_div, div_one]
  constructor
  · linarith [hpv.1, kv_N.2]
  · linarith [hpv.2, kv_N.1]

theorem kv_arctanT : (0.67078465240389075484226575 : ℝ) ≤ Real.arctan (tanPhiArg originalEcef grs80Stated) ∧
    Real.arctan (tanPhiArg originalEcef grs80Stated) ≤ 0.67078465402310832245408053 := by
  have b0 := halfArg_bounds (tanPhiArg originalEcef grs80Stated) (0.79353212462871090245761217) (0.79353212462871090245761223) (1.2765943885266596188954101) (1.2765943885266596188954102) (0.34856104742587016956949398) (0.34856104742587016956949403)
    kv_T.1 kv_T.2 (by norm_num) (by norm_num) (by norm_num) (by norm_num) (by norm_num) (by norm_num) (by norm_num)
  have b1 := halfArg_bounds (halfArg (tanPhiArg originalEcef grs80Stated)) (0.34856104742587016956949398) (0.34856104742587016956949403) (1.0590065173466212967807637) (1.0590065173466212967807638) (0.16928603406027588834321722) (0.16928603406027588834321726)
    b0.1 b0.2 (by norm_num) (by norm_num) (by norm_num) (by norm_num) (by norm_num) (by norm_num) (by norm_num)
  have b2 := halfArg_bounds (halfArg (halfArg (tanPhiArg originalEcef grs80Stated))) (0.16928603406027588834321722) (0.16928603406027588834321726) (1.0142276674040483343505942) (1.0142276674040483343505943) (0.084045133923938694448971225) (0.08404513392393869444897125)
    b1.1 b1.2 (by norm_num) (by norm_num) (by norm_num) (by norm_num) (by norm_num) (by norm_num) (by norm_num)
  have b3 := halfArg_bounds (halfArg (halfArg (halfArg (tanPhiArg originalEcef grs80Stated)))) (0.084045133923938694448971225) (0.08404513392393869444897125) (1.0035255774200739278191914) (1.0035255774200739278191915) (0.041948620407513356495468785) (0.0419486204075133564954688)
    b2.1 b2.2 (by norm_num) (by norm_num) (by norm_num) (by norm_num) (by norm_num) (by norm_num) (by norm_num)
  have b4 := halfArg_bounds (halfArg (halfArg (halfArg (halfArg (tanPhiArg originalEcef grs80Stated))))) (0.041948620407513356495468785) (0.0419486204075133564954688) (1.000879456655042773507628) (1.0008794566550427735076281) (0.020965091259240918994260033) (0.020965091259240918994260042)
    b3.1 b3.2 (by norm_num) (by norm_num) (by norm_num) (by norm_num) (by norm_num) (by norm_num) (by norm_num)
  have b5 := halfArg_bounds (halfArg (halfArg (halfArg (halfArg (halfArg (tanPhiArg originalEcef grs80Stated)))))) (0.020965091259240918994260033) (0.020965091259240918994260042) (1.0002197433821771446659112) (1.0002197433821771446659113) (0.010481394021134391810242489) (0.010481394021134391810242495)
    b4.1 b4.2 (by norm_num) (by norm_num) (by norm_num) (by norm_num) (by norm_num) (by norm_num) (by norm_num)
  have heq : Real.arctan (tanPhiArg originalEcef grs80Stated) = 64 * Real.arctan (halfArg (halfArg (halfArg (halfArg (halfArg (halfArg (tanPhiArg originalEcef grs80Stated))))))) := by
    rw [arctan_halfArg (tanPhiArg originalEcef grs80Stated),
      arctan_halfArg (halfArg (tanPhiArg originalEcef grs80Stated)),
      arctan_halfArg (halfArg (halfArg (tanPhiArg originalEcef grs80Stated))),
      arctan_halfArg (halfArg (halfArg (halfArg (tanPhiArg originalEcef grs80Stated)))),
      arctan_halfArg (halfArg (halfArg (halfArg (halfArg (tanPhiArg originalEcef grs80Stated))))),
      arctan_halfArg (halfArg (halfArg (halfArg (halfArg (halfArg (tanPhiArg originalEcef grs80Stated))))))]
    ring
  have hm1 := Real.arctan_strictMono.monotone b5.1
  have hm2 := Real.arctan_strictMono.monotone b5.2
  have hc := arctan_ge_cubic (show (0:ℝ) ≤ 0.010481394021134391810242489 by norm_num)
  have hq := arctan_le_quintic (show (0:ℝ) ≤ 0.010481394021134391810242495 by norm_num)
  rw [heq]
  constructor
  · linarith [hm1, hc]
  · linarith [hm2, hq]

theorem kv_arctanRho : (1.3934680655784966295710782 : ℝ) ≤ Real.arctan ((4924872368 : ℝ) / 882589289) ∧
    Real.arctan ((4924872368 : ℝ) / 882589289) ≤ 1.3934681282598657140185557 := by
  have b0 := halfArg_bounds ((4924872368 : ℝ) / 882589289) (((4924872368 : ℝ) / 882589289)) (((4924872368 : ℝ) / 882589289)) (5.6689245173390331446490076) (5.6689245173390331446490077) (0.83672072334868789336373757) (0.83672072334868789336373759)
    (le_refl _) (le_refl _) (by norm_num) (by norm_num) (by norm_num) (by norm_num) (by norm_num) (by norm_num) (by norm_num)
  have b1 := halfArg_bounds (halfArg ((4924872368 : ℝ) / 882589289)) (0.83672072334868789336373757) (0.83672072334868789336373759) (1.3038794303466680203225199) (1.30387943034666802032252) (0.36317904154506268325364597) (0.36317904154506268325364601)
    b0.1 b0.2 (by norm_num) (by norm_num) (by norm_num) (by norm_num) (by norm_num) (by norm_num) (by norm_num)
  have b2 := halfArg_bounds (halfArg (halfArg ((4924872368 : ℝ) / 882589289))) (0.36317904154506268325364597) (0.36317904154506268325364601) (1.063907428406057500667296) (1.0639074284060575006672961) (0.1759667301675170251876372) (0.17596673016751702518763723)
    b1.1 b1.2 (by norm_num) (by norm_num) (by norm_num) (by norm_num) (by norm_num) (by norm_num) (by norm_num)
  have b3 := halfArg_bounds (halfArg (halfArg (halfArg ((4924872368 : ℝ) / 882589289)))) (0.1759667301675170251876372) (0.17596673016751702518763723) (1.015364117017066812156689) (1.0153641170170668121566892) (0.087312624394625399112525019) (0.087312624394625399112525043)
    b2.1 b2.2 (by norm_num) (by norm_num) (by norm_num) (by norm_num) (by norm_num) (by norm_num) (by norm_num)
  have b4 := halfArg_bounds (halfArg (halfArg (halfArg (halfArg ((4924872368 : ℝ) / 882589289))))) (0.087312624394625399112525019) (0.087312624394625399112525043) (1.0038045100410123851411919) (1.003804510041012385141192) (0.043573424431926420331193998) (0.043573424431926420331194013)
    b3.1 b3.2 (by norm_num) (by norm_num) (by norm_num) (by norm_num) (by norm_num) (by norm_num) (by norm_num)
  have b5 := halfArg_bounds (halfArg (halfArg (halfArg (halfArg (halfArg ((4924872368 : ℝ) / 882589289)))))) (0.043573424431926420331193998) (0.043573424431926420331194013) (1.000948871479819793440838) (1.0009488714798197934408381) (0.021776380722662494173723957) (0.021776380722662494173723967)
    b4.1 b4.2 (by norm_num) (by norm_num) (by norm_num) (by norm_num) (by norm_num) (by norm_num) (by norm_num)
  have heq : Real.arctan ((4924872368 : ℝ) / 882589289) = 64 * Real.arctan (halfArg (halfArg (halfArg (halfArg (halfArg (halfArg ((4924872368 : ℝ) / 882589289))))))) := by
    rw [arctan_halfArg ((4924872368 : ℝ) / 882589289),
      arctan_halfArg (halfArg ((4924872368 : ℝ) / 882589289)),
      arctan_halfArg (halfArg (halfArg ((4924872368 : ℝ) / 882589289))),
      arctan_halfArg (halfArg (halfArg (halfArg ((4924872368 : ℝ) / 882589289)))),
      arctan_halfArg (halfArg (halfArg (halfArg (halfArg ((4924872368 : ℝ) / 882589289))))),
      arctan_halfArg (halfArg (halfArg (halfArg (halfArg (halfArg ((4924872368 : ℝ) / 882589289))))))]
    ring
  have hm1 := Real.arctan_strictMono.monotone b5.1
  have hm2 := Real.arctan_strictMono.monotone b5.2
  have hc := arctan_ge_cubic (show (0:ℝ) ≤ 0.021776380722662494173723957 by norm_num)
  have hq := arctan_le_quintic (show (0:ℝ) ≤ 0.021776380722662494173723967 by norm_num)
  rw [heq]
  constructor
  · linarith [hm1, hc]
  · linarith [hm2, hq]

theorem kv_q : (5.6689245173390331446490076 : ℝ) ≤ Real.sqrt (1 + ((4924872368 : ℝ) / 882589289) ^ 2) ∧
    Real.sqrt (1 + ((4924872368 : ℝ) / 882589289) ^ 2) ≤ 5.6689245173390331446490077 :=
  iv_sqrt2 (by norm_num) (by norm_num) (by norm_num) (by norm_num)

theorem kv_cosphi : (0.78333416548549759638897429 : ℝ) ≤ Real.cos (phiOf originalEcef grs80Stated) ∧
    Real.cos (phiOf originalEcef grs80Stated) ≤ 0.78333416548549759638897436 := by
  rw [cos_phi_eq]
  exact iv_div2 (le_refl (1 : ℝ)) (le_refl _) kv_v.1 kv_v.2 (by norm_num) (by norm_num) (by norm_num) (by norm_num)

theorem kv_coslam : (0.17640030255146091773388518 : ℝ) ≤ Real.cos (lamOf originalEcef) ∧
    Real.cos (lamOf originalEcef) ≤ 0.1764003025514609177338852 := by
  rw [cos_lam_eq]
  exact iv_div2 (le_refl (1 : ℝ)) (le_refl _) kv_q.1 kv_q.2 (by norm_num) (by norm_num) (by norm_num) (by norm_num)

theorem kv_sinlam : (-0.98431851209847366704167238 : ℝ) ≤ Real.sin (lamOf originalEcef) ∧
    Real.sin (lamOf originalEcef) ≤ -0.98431851209847366704167236 := by
  rw [sin_lam_eq]
  have hpos : (0.98431851209847366704167236 : ℝ) ≤ ((4924872368 : ℝ) / 882589289) / Real.sqrt (1 + ((4924872368 : ℝ) / 882589289) ^ 2) ∧
      ((4924872368 : ℝ) / 882589289) / Real.sqrt (1 + ((4924872368 : ℝ) / 882589289) ^ 2) ≤ 0.98431851209847366704167238 :=
    iv_div2 (le_refl _) (le_refl _) kv_q.1 kv_q.2 (by norm_num) (by norm_num) (by norm_num) (by norm_num)
  constructor
  · linarith [hpos.2]
  · linarith [hpos.1]

theorem kv_sinphi : (0.62160082463196512896770521 : ℝ) ≤ Real.sin (phiOf originalEcef grs80Stated) ∧
    Real.sin (phiOf originalEcef grs80Stated) ≤ 0.62160082463196512896770531 := by
  rw [sin_phi_eq]
  exact iv_div2 kv_T.1 kv_T.2 kv_v.1 kv_v.2 (by norm_num) (by norm_num) (by norm_num) (by norm_num)

theorem offsetResult_X_eq : offsetResult.X =
    (NOf originalEcef grs80Stated + (hOf originalEcef grs80Stated + 0.05)) *
      Real.cos (phiOf originalEcef grs80Stated) * Real.cos (lamOf originalEcef) := by
  simp only [offsetResult, llaToEcef, applyAltitudeOffset, ecefToLla, radiansOf_degrees]

theorem offsetResult_Y_eq : offsetResult.Y =
    (NOf originalEcef grs80Stated + (hOf originalEcef grs80Stated + 0.05)) *
      Real.cos (phiOf originalEcef grs80Stated) * Real.sin (lamOf originalEcef) := by
  simp only [offsetResult, llaToEcef, applyAltitudeOffset, ecefToLla, radiansOf_degrees]

theorem offsetResult_Z_eq : offsetResult.Z =
    (grs80Stated.b ^ 2 / grs80Stated.a ^ 2 * NOf originalEcef grs80Stated +
      (hOf originalEcef grs80Stated + 0.05)) * Real.sin (phiOf originalEcef grs80Stated) := by
  simp only [offsetResult, llaToEcef, applyAltitudeOffset, ecefToLla, radiansOf_degrees]

theorem kv_c : (6387225.6806501615996903407 : ℝ) ≤
    NOf originalEcef grs80Stated + (hOf originalEcef grs80Stated + 0.05) ∧
    NOf originalEcef grs80Stated + (hOf originalEcef grs80Stated + 0.05) ≤ 6387225.6806501615996903418 := by
  constructor
  · linarith [kv_N.1, kv_h.1]
  · linarith [kv_N.2, kv_h.2]

theorem kv_civ : (5003332.098319633709358081 : ℝ) ≤
    (NOf originalEcef grs80Stated + (hOf originalEcef grs80Stated + 0.05)) *
      Real.cos (phiOf originalEcef grs80Stated) ∧
    (NOf originalEcef grs80Stated + (hOf originalEcef grs80Stated + 0.05)) *
      Real.cos (phiOf originalEcef grs80Stated) ≤ 5003332.0983196337093580824 :=
  iv_mul2 kv_c.1 kv_c.2 kv_cosphi.1 kv_cosphi.2 (by norm_num) (by norm_num) (by norm_num) (by norm_num)

theorem kv_X5 : (882589.2959090191895268 : ℝ) ≤ offsetResult.X ∧ offsetResult.X ≤ 882589.2959090191895269 := by
  rw [offsetResult_X_eq]
  exact iv_mul2 kv_civ.1 kv_civ.2 kv_coslam.1 kv_coslam.2 (by norm_num) (by norm_num) (by norm_num) (by norm_num)

theorem kv_Y5 : (-4924872.40655251601233 : ℝ) ≤ offsetResult.Y ∧ offsetResult.Y ≤ -4924872.406552516012329 := by
  rw [offsetResult_Y_eq]
  exact iv_mul_mixed kv_civ.1 kv_civ.2 kv_sinlam.1 kv_sinlam.2 (by norm_num) (by norm_num) (by norm_num) (by norm_num)

theorem kv_Z5 : (3943729.449080048359371 : ℝ) ≤ offsetResult.Z ∧ offsetResult.Z ≤ 3943729.449080048359372 := by
  rw [offsetResult_Z_eq, grs80Stated_b, grs80Stated_a]
  have hz : (6344472.6789335190208784043 : ℝ) ≤
      (6356752.3141403474372288488 : ℝ) ^ 2 / (6378137 : ℝ) ^ 2 * NOf originalEcef grs80Stated +
        (hOf originalEcef grs80Stated + 0.05) ∧
      (6356752.3141403474372288488 : ℝ) ^ 2 / (6378137 : ℝ) ^ 2 * NOf originalEcef grs80Stated +
        (hOf originalEcef grs80Stated + 0.05) ≤ 6344472.6789335190208784055 := by
    constructor
    · linarith [kv_N.1, kv_h.1]
    · linarith [kv_N.2, kv_h.2]
  exact iv_mul2 hz.1 hz.2 kv_sinphi.1 kv_sinphi.2 (by norm_num) (by norm_num) (by norm_num) (by norm_num)

/-- C4: at the known-value GBT input with the stated GRS80 constants, the
    conversion returns latitude 38.43312964 degrees, longitude -79.83984263
    degrees and altitude 823.66805 meters, each within 1e-4. -/
theorem known_value_scenario :
    |(ecefToLla originalEcef grs80Stated).lla.lat - 38.43312964| < 1e-4 ∧
    |(ecefToLla originalEcef grs80Stated).lla.lon - (-79.83984263)| < 1e-4 ∧
    |(ecefToLla originalEcef grs80Stated).lla.alt - 823.66805| < 1e-4 := by
  have hy1 : (3.14159265358979323846 : ℝ) ≤ π := Real.pi_gt_d20.le
  have hy2 : π ≤ (3.14159265358979323847 : ℝ) := Real.pi_lt_d20.le
  refine ⟨?_, ?_, ?_⟩
  · show |degrees (phiOf originalEcef grs80Stated) - 38.43312964| < 1e-4
    simp only [degrees, phiOf]
    have hx1 : (0.67078465240389075484226575 : ℝ) * 180 ≤ Real.arctan (tanPhiArg originalEcef grs80Stated) * 180 := by
      linarith [kv_arctanT.1]
    have hx2 : Real.arctan (tanPhiArg originalEcef grs80Stated) * 180 ≤ (0.67078465402310832245408053 : ℝ) * 180 := by
      linarith [kv_arctanT.2]
    have hb : (38.433129544892889693 : ℝ) ≤ Real.arctan (tanPhiArg originalEcef grs80Stated) * 180 / π ∧
        Real.arctan (tanPhiArg originalEcef grs80Stated) * 180 / π ≤ 38.433129637667222432 :=
      iv_div2 hx1 hx2 hy1 hy2 (by norm_num) (by norm_num) (by norm_num) (by norm_num)
    rw [abs_lt]
    constructor
    · linarith [hb.1]
    · linarith [hb.2]
  · show |degrees (lamOf originalEcef) - (-79.83984263)| < 1e-4
    rw [kv_lam_eq]
    simp only [degrees]
    rw [neg_mul, neg_div]
    have hx1 : (1.3934680655784966295710782 : ℝ) * 180 ≤ Real.arctan ((4924872368 : ℝ) / 882589289) * 180 := by
      linarith [kv_arctanRho.1]
    have hx2 : Real.arctan ((4924872368 : ℝ) / 882589289) * 180 ≤ (1.3934681282598657140185557 : ℝ) * 180 := by
      linarith [kv_arctanRho.2]
    have hb : (79.839839043906879194 : ℝ) ≤ Real.arctan ((4924872368 : ℝ) / 882589289) * 180 / π ∧
        Real.arctan ((4924872368 : ℝ) / 882589289) * 180 / π ≤ 79.839842635284781836 :=
      iv_div2 hx1 hx2 hy1 hy2 (by norm_num) (by norm_num) (by norm_num) (by norm_num)
    rw [abs_lt]
    constructor
    · linarith [hb.2]
    · linarith [hb.1]
  · show |hOf originalEcef grs80Stated - 823.66805| < 1e-4
    rw [abs_lt]
    constructor
    · linarith [kv_h.1]
    · linarith [kv_h.2]

/-- C5 counterexample: the claimed difference vector is wrong: with the
    0.05 m offset actually applied by the code, the X difference is below
    0.007 m, more than 10 m away from the claimed 10.36 m (the notebook's
    printed difference cell reflects stale state, not this computation). -/
theorem offset_diff_vector_counterexample :
    ¬(|(diff offsetResult originalEcef).X - 10.36| < 0.005 ∧
      |(diff offsetResult originalEcef).Y - (-57.83)| < 0.005 ∧
      |(diff offsetResult originalEcef).Z - 46.62| < 0.005) := by
  intro hcl
  have h := hcl.1
  have hX := kv_X5
  have hDX : (diff offsetResult originalEcef).X = offsetResult.X - 882589.289 := by
    show offsetResult.X - originalEcef.X = _
    rw [originalEcef_X]
  rw [hDX, abs_lt] at h
  linarith [hX.2, h.1]

/-- C5 amended: the offset scenario reproduces the stated ECEF values within
    1e-3 m, and the difference from the original input is approximately
    (0.00691, -0.03855, 0.03108) m — d = 0.05 m distributed along the local
    normal — not the (10.36, -57.83, 46.62) recorded from stale output. -/
theorem offset_scenario_amended :
    |offsetResult.X - 882589.29591| < 1e-3 ∧
    |offsetResult.Y - (-4924872.40655)| < 1e-3 ∧
    |offsetResult.Z - 3943729.44908| < 1e-3 ∧
    |(diff offsetResult originalEcef).X - 0.00691| < 5e-5 ∧
    |(diff offsetResult originalEcef).Y - (-0.03855)| < 5e-5 ∧
    |(diff offsetResult originalEcef).Z - 0.03108| < 5e-5 := by
  have hX := kv_X5
  have hY := kv_Y5
  have hZ := kv_Z5
  have hDX : (diff offsetResult originalEcef).X = offsetResult.X - 882589.289 := by
    show offsetResult.X - originalEcef.X = _
    rw [originalEcef_X]
  have hDY : (diff offsetResult originalEcef).Y = offsetResult.Y - -4924872.368 := by
    show offsetResult.Y - originalEcef.Y = _
    rw [originalEcef_Y]
  have hDZ : (diff offsetResult originalEcef).Z = offsetResult.Z - 3943729.418 := by
    show offsetResult.Z - originalEcef.Z = _
    rw [originalEcef_Z]
  refine ⟨?_, ?_, ?_, ?_, ?_, ?_⟩
  · rw [abs_lt]
    exact ⟨by linarith [hX.1], by linarith [hX.2]⟩
  · rw [abs_lt]
    exact ⟨by linarith [hY.1], by linarith [hY.2]⟩
  · rw [abs_lt]
    exact ⟨by linarith [hZ.1], by linarith [hZ.2]⟩
  · rw [hDX, abs_lt]
    exact ⟨by linarith [hX.1], by linarith [hX.2]⟩
  · rw [hDY, abs_lt]
    exact ⟨by linarith [hY.1], by linarith [hY.2]⟩
  · rw [hDZ, abs_lt]
    exact ⟨by linarith [hZ.1], by linarith [hZ.2]⟩

end
